import Mathlib

/-
Verification of the region-mask construction utility described by the
pop-tools example notebook `docs/source/examples/region-mask.ipynb`.

The notebook calls the library function `region_mask_3d` with a
`region_defs` dictionary; the MaskBuilder component below embeds that
construction.  The subplot-grid arithmetic of the notebook's
`visualize_mask` helper is embedded at the end of the definitions.
-/

set_option autoImplicit false

namespace PopTools

/-- A 2-D numeric field, stored as a list of rows of rational values.
Grid cells are addressed as `(j, i)` = (row, column), matching the
notebook's `REGION_MASK[j,i]` indexing. -/
abbrev Field2D := List (List ℚ)

/-- A 2-D boolean mask with the same row/column layout as a `Field2D`. -/
abbrev Mask := List (List Bool)

/-- Value of a field at cell `(j, i)`; out-of-range reads default to `0`. -/
def getCell (f : Field2D) (j i : Nat) : ℚ :=
  (f.getD j []).getD i 0

/-- Shape of a 2-D array: the list of its row lengths. -/
def shape2 {α : Type} (m : List (List α)) : List Nat :=
  m.map List.length

/-- Modelled from the spec: the Grid data model of `region_mask_3d` is not
part of the sampled sources (only the notebook that calls it is), so it is
modelled from the spec's data model: an immutable dataset exposing a 2-D
integer `REGION_MASK` array plus auxiliary named 2-D coordinate arrays
(e.g. `TLAT`, `TLONG`) indexed by the same `(j, i)` grid. -/
structure Grid where
  region_mask : Field2D
  fields : List (String × Field2D)

/-- Association-list lookup of a named field on the grid.  The name
`REGION_MASK` always resolves to the grid's region-mask array; other
names are looked up among the auxiliary coordinate arrays. -/
def lookupField (g : Grid) (name : String) : Option Field2D :=
  if name = "REGION_MASK" then some g.region_mask else go g.fields name
where
  go : List (String × Field2D) → String → Option Field2D
    | [], _ => none
    | p :: rest, n => if p.1 = n then some p.2 else go rest n

/-- Modelled from the spec: one Criterion of a region definition — an
optional "match" clause (a named grid field together with the set of
integer codes the field must belong to) and/or an optional "bounds"
clause (named coordinate fields each with a closed interval
`[low, high]`). -/
structure Criterion where
  matchClause : Option (String × List Int)
  boundsClause : Option (List (String × ℚ × ℚ))
deriving DecidableEq

/-- Region definitions: an insertion-ordered mapping from region name to
its list of criteria. -/
abbrev RegionDefs := List (String × List Criterion)

/-- Modelled from the spec: the output Mask3D — an ordered mapping from
region name to a boolean 2-D membership array. -/
abbrev Mask3D := List (String × Mask)

/-- Modelled from the spec: the error conditions of `build`. -/
inductive BuildError where
  | InvalidField : String → BuildError
  | InvalidBounds : BuildError
  | EmptyRegionSet : BuildError
deriving DecidableEq

/-- Satisfaction of a "match" clause at cell `(j, i)`: true when the named
grid field's value there is a member of the supplied code set. -/
def matchSat (g : Grid) (m : String × List Int) (j i : Nat) : Bool :=
  match lookupField g m.1 with
  | some f => m.2.any fun code => decide ((code : ℚ) = getCell f j i)
  | none => false

/-- Satisfaction of one bounds field/interval pair at cell `(j, i)`: true
when the named coordinate field's value lies within the closed interval,
inclusive on both ends. -/
def boundSat (g : Grid) (p : String × ℚ × ℚ) (j i : Nat) : Bool :=
  match lookupField g p.1 with
  | some f => decide (p.2.1 ≤ getCell f j i) && decide (getCell f j i ≤ p.2.2)
  | none => false

/-- Satisfaction of a whole Criterion at cell `(j, i)`: the match clause
(if present) AND all bounds pairs (if present); an absent clause imposes
no constraint. -/
def critSat (g : Grid) (c : Criterion) (j i : Nat) : Bool :=
  (match c.matchClause with
   | some m => matchSat g m j i
   | none => true) &&
  (match c.boundsClause with
   | some bs => bs.all fun p => boundSat g p j i
   | none => true)

/-- Build a 2-D boolean array with the same shape as `rm`, whose entry at
`(j, i)` is `pred j i`. -/
def mkMask (rm : Field2D) (pred : Nat → Nat → Bool) : Mask :=
  (List.range rm.length).map fun j =>
    (List.range (rm.getD j []).length).map fun i => pred j i

/-- Modelled from the spec: the per-region mask — each cell is true when
some criterion of the region holds there (criteria are alternatives,
combined with logical OR). -/
def buildMaskArray (g : Grid) (crits : List Criterion) (rm : Field2D) : Mask :=
  mkMask rm fun j i => crits.any fun c => critSat g c j i

/-- Field names referenced by one criterion. -/
def critFields (c : Criterion) : List String :=
  (match c.matchClause with
   | some m => [m.1]
   | none => []) ++
  (match c.boundsClause with
   | some bs => bs.map Prod.fst
   | none => [])

/-- All field names referenced anywhere in a `RegionDefs`. -/
def allFields (defs : RegionDefs) : List String :=
  (defs.map fun r => (r.2.map critFields).flatten).flatten

/-- First referenced field name that is absent from the grid, if any. -/
def missingField (g : Grid) (defs : RegionDefs) : Option String :=
  (allFields defs).find? fun n => (lookupField g n).isNone

/-- Does a criterion contain a malformed bounds interval (low > high)? -/
def badBounds (c : Criterion) : Bool :=
  match c.boundsClause with
  | some bs => bs.any fun p => decide (p.2.2 < p.2.1)
  | none => false

/-- Modelled from the spec: validation of `region_defs` against the grid,
checking the spec's error conditions in the order the spec lists them:
`InvalidField` (a referenced field name is absent from the grid), then
`InvalidBounds` (an interval's low bound exceeds its high bound), then
`EmptyRegionSet` (a region with zero criteria). -/
def firstError (g : Grid) (defs : RegionDefs) : Option BuildError :=
  match missingField g defs with
  | some n => some (BuildError.InvalidField n)
  | none =>
    if defs.any fun r => r.2.any badBounds then some BuildError.InvalidBounds
    else if defs.any fun r => r.2.isEmpty then some BuildError.EmptyRegionSet
    else none

/-- Modelled from the spec: `build(grid, region_defs) -> Mask3D`, the
MaskBuilder contract of `region_mask_3d`'s `region_defs` path, which is
not among the sampled sources.  Validation failures are surfaced
immediately; otherwise one boolean mask per region is produced, in the
iteration order of `region_defs`. -/
def build (g : Grid) (defs : RegionDefs) : Except BuildError Mask3D :=
  match firstError g defs with
  | some e => Except.error e
  | none => Except.ok (defs.map fun r => (r.1, buildMaskArray g r.2 g.region_mask))

/-- Elementwise AND (intersection) of two masks of equal shape. -/
def maskAnd (a b : Mask) : Mask :=
  List.zipWith (fun ra rb => List.zipWith (fun x y => x && y) ra rb) a b

/-- Elementwise OR (union) of two masks of equal shape. -/
def maskOr (a b : Mask) : Mask :=
  List.zipWith (fun ra rb => List.zipWith (fun x y => x || y) ra rb) a b

/-- Entry of a mask at cell `(j, i)`; out-of-range reads default to
`false`. -/
def maskAt (m : Mask) (j i : Nat) : Bool :=
  (m.getD j []).getD i false

/-- Number of subplot columns used by the notebook's `visualize_mask`:
`ncol = int(np.sqrt(nregion))`, the integer square root. -/
def ncol (nregion : Nat) : Nat :=
  Nat.sqrt nregion

/-- Number of subplot rows used by the notebook's `visualize_mask`:
`nrow = int(nregion / ncol) + min(1, nregion % ncol)`, with integer
(floor) division. -/
def nrow (nregion : Nat) : Nat :=
  nregion / ncol nregion + min 1 (nregion % ncol nregion)

/-! ### Helper lemmas -/

theorem zipWith_map_same {α β γ δ : Type} (f : β → γ → δ) (u : α → β) (v : α → γ) :
    ∀ l : List α, List.zipWith f (l.map u) (l.map v) = l.map fun x => f (u x) (v x)
  | [] => rfl
  | x :: xs => by
    simp only [List.map_cons, List.zipWith_cons_cons, zipWith_map_same f u v xs]

theorem maskAnd_mkMask (rm : Field2D) (p q : Nat → Nat → Bool) :
    maskAnd (mkMask rm p) (mkMask rm q) = mkMask rm fun j i => p j i && q j i := by
  unfold maskAnd mkMask
  rw [zipWith_map_same]
  exact List.map_congr_left fun j _ => zipWith_map_same _ _ _ _

theorem maskOr_mkMask (rm : Field2D) (p q : Nat → Nat → Bool) :
    maskOr (mkMask rm p) (mkMask rm q) = mkMask rm fun j i => p j i || q j i := by
  unfold maskOr mkMask
  rw [zipWith_map_same]
  exact List.map_congr_left fun j _ => zipWith_map_same _ _ _ _

theorem maskAt_mkMask (rm : Field2D) (p : Nat → Nat → Bool) (j i : Nat)
    (hj : j < rm.length) (hi : i < (rm.getD j []).length) :
    maskAt (mkMask rm p) j i = p j i := by
  have hrow : (mkMask rm p).getD j [] =
      (List.range (rm.getD j []).length).map fun i => p j i := by
    unfold mkMask
    rw [List.getD_eq_getElem?_getD, List.getElem?_map, List.getElem?_range hj]
    rfl
  unfold maskAt
  rw [hrow, List.getD_eq_getElem?_getD, List.getElem?_map, List.getElem?_range hi]
  rfl

theorem shape2_mkMask (rm : Field2D) (p : Nat → Nat → Bool) :
    shape2 (mkMask rm p) = shape2 rm := by
  unfold shape2 mkMask
  apply List.ext_getElem
  · simp
  · intro n h1 h2
    simp only [List.getElem_map, List.getElem_range, List.length_map,
      List.length_range] at h1 h2 ⊢
    rw [List.getD_eq_getElem rm [] (by simpa using h2)]

theorem critSat_eq (g : Grid) (m : Option (String × List Int))
    (bs : Option (List (String × ℚ × ℚ))) (j i : Nat) :
    critSat g ⟨m, bs⟩ j i =
      ((match m with
        | some m0 => matchSat g m0 j i
        | none => true) &&
       (match bs with
        | some bs0 => bs0.all fun p => boundSat g p j i
        | none => true)) := rfl

theorem buildMaskArray_single (g : Grid) (c : Criterion) (rm : Field2D) :
    buildMaskArray g [c] rm = mkMask rm fun j i => critSat g c j i := by
  unfold buildMaskArray
  simp

theorem firstError_eq_none_iff (g : Grid) (defs : RegionDefs) :
    firstError g defs = none ↔
      missingField g defs = none ∧
      (defs.any fun r => r.2.any badBounds) = false ∧
      (defs.any fun r => r.2.isEmpty) = false := by
  unfold firstError
  cases h : missingField g defs with
  | some n => simp [h]
  | none =>
    cases hb : (defs.any fun r => r.2.any badBounds) <;>
      cases he : (defs.any fun r => r.2.isEmpty) <;>
        simp [hb, he]

theorem build_ok_iff (g : Grid) (defs : RegionDefs) (out : Mask3D) :
    build g defs = Except.ok out ↔
      firstError g defs = none ∧
      out = defs.map fun r => (r.1, buildMaskArray g r.2 g.region_mask) := by
  unfold build
  cases h : firstError g defs with
  | some e => simp
  | none =>
    constructor
    · intro hh
      simp only at hh
      injection hh with h2
      exact ⟨rfl, h2.symm⟩
    · rintro ⟨-, rfl⟩
      rfl

instance {ε α : Type} [DecidableEq ε] [DecidableEq α] : DecidableEq (Except ε α) :=
  fun a b =>
    match a, b with
    | Except.ok x, Except.ok y =>
      if h : x = y then isTrue (by rw [h]) else isFalse (by intro hh; cases hh; exact h rfl)
    | Except.error e, Except.error f =>
      if h : e = f then isTrue (by rw [h]) else isFalse (by intro hh; cases hh; exact h rfl)
    | Except.ok _, Except.error _ => isFalse (by intro hh; cases hh)
    | Except.error _, Except.ok _ => isFalse (by intro hh; cases hh)

theorem mkMask_congr (rm : Field2D) {p q : Nat → Nat → Bool}
    (h : ∀ j i, p j i = q j i) : mkMask rm p = mkMask rm q :=
  congrArg (mkMask rm) (funext fun j => funext fun i => h j i)

theorem buildMaskArray_append (g : Grid) (cs1 cs2 : List Criterion) (rm : Field2D) :
    buildMaskArray g (cs1 ++ cs2) rm =
      maskOr (buildMaskArray g cs1 rm) (buildMaskArray g cs2 rm) := by
  unfold buildMaskArray
  rw [maskOr_mkMask]
  exact mkMask_congr rm fun j i => List.any_append

theorem buildMaskArray_both (g : Grid) (m : String × List Int)
    (bs : List (String × ℚ × ℚ)) (rm : Field2D) :
    buildMaskArray g [⟨some m, some bs⟩] rm =
      maskAnd (buildMaskArray g [⟨some m, none⟩] rm)
        (buildMaskArray g [⟨none, some bs⟩] rm) := by
  rw [buildMaskArray_single, buildMaskArray_single, buildMaskArray_single, maskAnd_mkMask]
  exact mkMask_congr rm fun j i => by simp [critSat]

theorem buildMaskArray_bounds_append (g : Grid) (m : Option (String × List Int))
    (bs1 bs2 : List (String × ℚ × ℚ)) (rm : Field2D) :
    buildMaskArray g [⟨m, some (bs1 ++ bs2)⟩] rm =
      maskAnd (buildMaskArray g [⟨m, some bs1⟩] rm)
        (buildMaskArray g [⟨m, some bs2⟩] rm) := by
  rw [buildMaskArray_single, buildMaskArray_single, buildMaskArray_single, maskAnd_mkMask]
  refine mkMask_congr rm fun j i => ?_
  rcases m with _ | m0
  · simp [critSat, List.all_append]
  · simp only [critSat, List.all_append]
    cases matchSat g m0 j i <;>
      cases (bs1.all fun p => boundSat g p j i) <;>
        cases (bs2.all fun p => boundSat g p j i) <;> rfl

theorem matchMask_iff (g : Grid) (nm : String) (codes : List Int) (f rm : Field2D)
    (j i : Nat) (hf : lookupField g nm = some f)
    (hj : j < rm.length) (hi : i < (rm.getD j []).length) :
    maskAt (buildMaskArray g [⟨some (nm, codes), none⟩] rm) j i = true ↔
      ∃ code ∈ codes, (code : ℚ) = getCell f j i := by
  rw [buildMaskArray_single, maskAt_mkMask _ _ _ _ hj hi]
  simp [critSat, matchSat, hf]

theorem shape2_buildMaskArray (g : Grid) (crits : List Criterion) (rm : Field2D) :
    shape2 (buildMaskArray g crits rm) = shape2 rm :=
  shape2_mkMask rm _

/-! ### Concrete example data for witnesses

A small grid in the style of the notebook example: a 2 × 3 cell grid with
`REGION_MASK` codes and `TLAT`/`TLONG` coordinate fields (`TLAT` includes
the boundary values 32, 42 and 42.0001 of the spec's bounds example). -/

def tlatEx : Field2D := [[32, 42, mkRat 420001 10000], [10, 50, 60]]

def gEx : Grid :=
  { region_mask := [[6, 6, 0], [2, 6, 6]],
    fields :=
      [("TLAT", tlatEx),
       ("TLONG", [[310, 320, 330], [300, 340, 350]])] }

def critSTG : Criterion :=
  ⟨some ("REGION_MASK", [6]), some [("TLAT", 32, 42), ("TLONG", 310, 350)]⟩

def critSPG : Criterion :=
  ⟨some ("REGION_MASK", [2, 6]), some [("TLAT", 50, 60)]⟩

def defsEx : RegionDefs := [("NAtl-STG", [critSTG]), ("NAtl-SPG", [critSPG])]

def outEx : Mask3D := (build gEx defsEx).toOption.getD []

/-! ### Claim theorems -/

/-- C1: for a criterion with both a match clause and a bounds clause, the
per-cell boolean array equals the elementwise AND (intersection) of the
match sub-mask and the bounds sub-mask; and a bounds clause listing
several field/interval pairs combines those pairs with elementwise AND. -/
theorem match_and_bounds_intersection :
    (∀ (g : Grid) (m : String × List Int) (bs : List (String × ℚ × ℚ)) (rm : Field2D),
      buildMaskArray g [⟨some m, some bs⟩] rm =
        maskAnd (buildMaskArray g [⟨some m, none⟩] rm)
          (buildMaskArray g [⟨none, some bs⟩] rm)) ∧
    (∀ (g : Grid) (m : Option (String × List Int)) (bs1 bs2 : List (String × ℚ × ℚ))
        (rm : Field2D),
      buildMaskArray g [⟨m, some (bs1 ++ bs2)⟩] rm =
        maskAnd (buildMaskArray g [⟨m, some bs1⟩] rm)
          (buildMaskArray g [⟨m, some bs2⟩] rm)) :=
  ⟨buildMaskArray_both, buildMaskArray_bounds_append⟩

/-- C2: criteria in one region's list are alternatives — the region's mask
for a concatenated criterion list is the elementwise OR (union) of the
masks of the two sublists; in particular `build` of `[c1, c2]` is the
union of `build` of `[c1]` and `build` of `[c2]`. -/
theorem criteria_union :
    (∀ (g : Grid) (cs1 cs2 : List Criterion) (rm : Field2D),
      buildMaskArray g (cs1 ++ cs2) rm =
        maskOr (buildMaskArray g cs1 rm) (buildMaskArray g cs2 rm)) ∧
    (∀ (g : Grid) (nm : String) (c1 c2 : Criterion) (m1 m2 : Mask),
      build g [(nm, [c1])] = Except.ok [(nm, m1)] →
      build g [(nm, [c2])] = Except.ok [(nm, m2)] →
      build g [(nm, [c1, c2])] = Except.ok [(nm, maskOr m1 m2)]) := by
  refine ⟨buildMaskArray_append, ?_⟩
  intro g nm c1 c2 m1 m2 h1 h2
  obtain ⟨hf1, ho1⟩ := (build_ok_iff g _ _).mp h1
  obtain ⟨hf2, ho2⟩ := (build_ok_iff g _ _).mp h2
  have hm1 : m1 = buildMaskArray g [c1] g.region_mask := by simpa using ho1
  have hm2 : m2 = buildMaskArray g [c2] g.region_mask := by simpa using ho2
  obtain ⟨hmf1, hb1, -⟩ := (firstError_eq_none_iff g _).mp hf1
  obtain ⟨hmf2, hb2, -⟩ := (firstError_eq_none_iff g _).mp hf2
  have hfe : firstError g [(nm, [c1, c2])] = none := by
    rw [firstError_eq_none_iff]
    refine ⟨?_, ?_, by simp⟩
    · unfold missingField at hmf1 hmf2 ⊢
      rw [List.find?_eq_none] at hmf1 hmf2 ⊢
      intro x hx
      simp only [allFields, List.map_cons, List.map_nil, List.flatten_cons,
        List.flatten_nil, List.append_nil, List.mem_append] at hx
      rcases hx with hx | hx
      · exact hmf1 x (by simp [allFields, hx])
      · exact hmf2 x (by simp [allFields, hx])
    · simp only [List.any_cons, List.any_nil, Bool.or_false] at hb1 hb2
      simp [hb1, hb2]
  rw [build_ok_iff]
  refine ⟨hfe, ?_⟩
  rw [hm1, hm2, ← buildMaskArray_append g [c1] [c2] g.region_mask]
  rfl

/-- C2 witness: at the concrete example grid, `build` of a two-criterion
region is the elementwise union of the two single-criterion builds. -/
theorem criteria_union_witness :
    build gEx [("R", [critSTG, critSPG])] =
      Except.ok [("R", maskOr (buildMaskArray gEx [critSTG] gEx.region_mask)
        (buildMaskArray gEx [critSPG] gEx.region_mask))] :=
  criteria_union.2 gEx "R" critSTG critSPG
    (buildMaskArray gEx [critSTG] gEx.region_mask)
    (buildMaskArray gEx [critSPG] gEx.region_mask)
    (by decide) (by decide)

/-- C3: a bounds clause with interval `[lo, hi]` holds at a cell exactly
when the named coordinate field's value `v` there satisfies
`lo ≤ v ∧ v ≤ hi`, both endpoints included. -/
theorem bounds_inclusive :
    ∀ (g : Grid) (nm : String) (lo hi : ℚ) (f rm : Field2D) (j i : Nat),
      lookupField g nm = some f → j < rm.length → i < (rm.getD j []).length →
      (maskAt (buildMaskArray g [⟨none, some [(nm, lo, hi)]⟩] rm) j i = true ↔
        (lo ≤ getCell f j i ∧ getCell f j i ≤ hi)) := by
  intro g nm lo hi f rm j i hf hj hi2
  rw [buildMaskArray_single, maskAt_mkMask _ _ _ _ hj hi2]
  simp [critSat, boundSat, hf]

/-- C3 witness: on the example `TLAT` row `[32, 42, 42.0001]`, the bounds
criterion `[32, 42]` includes the cells with values 32 and 42 and
excludes the cell with value 42.0001. -/
theorem bounds_inclusive_witness :
    (maskAt (buildMaskArray gEx [⟨none, some [("TLAT", 32, 42)]⟩] gEx.region_mask) 0 0 = true ↔
      (32 ≤ getCell tlatEx 0 0 ∧ getCell tlatEx 0 0 ≤ 42)) ∧
    (maskAt (buildMaskArray gEx [⟨none, some [("TLAT", 32, 42)]⟩] gEx.region_mask) 0 2 = true ↔
      (32 ≤ getCell tlatEx 0 2 ∧ getCell tlatEx 0 2 ≤ 42)) ∧
    maskAt (buildMaskArray gEx [⟨none, some [("TLAT", 32, 42)]⟩] gEx.region_mask) 0 0 = true ∧
    maskAt (buildMaskArray gEx [⟨none, some [("TLAT", 32, 42)]⟩] gEx.region_mask) 0 1 = true ∧
    maskAt (buildMaskArray gEx [⟨none, some [("TLAT", 32, 42)]⟩] gEx.region_mask) 0 2 = false :=
  ⟨bounds_inclusive gEx "TLAT" 32 42 tlatEx gEx.region_mask 0 0 (by decide) (by decide) (by decide),
   bounds_inclusive gEx "TLAT" 32 42 tlatEx gEx.region_mask 0 2 (by decide) (by decide) (by decide),
   by decide, by decide, by decide⟩

/-- C8: a match clause holds at a cell exactly when the named grid
field's value there belongs to the supplied code set; in particular, for
the single criterion `{match: {REGION_MASK: [6]}}` the mask is true at
`(j, i)` exactly when `REGION_MASK[j,i] = 6`. -/
theorem match_membership :
    (∀ (g : Grid) (nm : String) (codes : List Int) (f rm : Field2D) (j i : Nat),
      lookupField g nm = some f → j < rm.length → i < (rm.getD j []).length →
      (maskAt (buildMaskArray g [⟨some (nm, codes), none⟩] rm) j i = true ↔
        ∃ code ∈ codes, (code : ℚ) = getCell f j i)) ∧
    (∀ (g : Grid) (j i : Nat),
      j < g.region_mask.length → i < (g.region_mask.getD j []).length →
      (maskAt (buildMaskArray g [⟨some ("REGION_MASK", [6]), none⟩] g.region_mask) j i = true ↔
        getCell g.region_mask j i = 6)) := by
  refine ⟨matchMask_iff, ?_⟩
  intro g j i hj hi
  rw [matchMask_iff g "REGION_MASK" [6] g.region_mask g.region_mask j i
    (by simp [lookupField]) hj hi]
  norm_num [eq_comm]

/-- C8 witness: on the example grid, the `REGION_MASK = 6` criterion is
true at cell (0,0) (code 6) and false at cell (1,0) (code 2). -/
theorem match_membership_witness :
    (maskAt (buildMaskArray gEx [⟨some ("REGION_MASK", [6]), none⟩] gEx.region_mask) 0 0 = true ↔
      getCell gEx.region_mask 0 0 = 6) ∧
    maskAt (buildMaskArray gEx [⟨some ("REGION_MASK", [6]), none⟩] gEx.region_mask) 0 0 = true ∧
    maskAt (buildMaskArray gEx [⟨some ("REGION_MASK", [6]), none⟩] gEx.region_mask) 1 0 = false :=
  ⟨match_membership.2 gEx 0 0 (by decide) (by decide), by decide, by decide⟩

/-- C4: a successful `build` returns one entry per region definition,
with the same names in the same (insertion) order. -/
theorem build_keys_order :
    ∀ (g : Grid) (defs : RegionDefs) (out : Mask3D),
      build g defs = Except.ok out →
      out.map Prod.fst = defs.map Prod.fst := by
  intro g defs out h
  obtain ⟨-, rfl⟩ := (build_ok_iff g defs out).mp h
  simp

/-- C4 witness: on the example grid, the output region names equal the
region-definition names, in order. -/
theorem build_keys_order_witness :
    outEx.map Prod.fst = defsEx.map Prod.fst ∧
    defsEx.map Prod.fst = ["NAtl-STG", "NAtl-SPG"] :=
  ⟨build_keys_order gEx defsEx outEx (by decide), by decide⟩

/-- C5: every boolean array in a successful `build` result has exactly
the shape of the grid's `REGION_MASK` array, for every region of every
result. -/
theorem build_shape_invariant :
    ∀ (g : Grid) (defs : RegionDefs) (out : Mask3D),
      build g defs = Except.ok out →
      ∀ p ∈ out, shape2 p.2 = shape2 g.region_mask := by
  intro g defs out h p hp
  obtain ⟨-, rfl⟩ := (build_ok_iff g defs out).mp h
  obtain ⟨r, -, rfl⟩ := List.mem_map.mp hp
  exact shape2_buildMaskArray g r.2 g.region_mask

/-- C5 witness: the first region mask of the example output has the
shape of the example grid's `REGION_MASK`. -/
theorem build_shape_invariant_witness :
    outEx.getD 0 ("", []) ∈ outEx ∧
    shape2 (outEx.getD 0 ("", [])).2 = shape2 gEx.region_mask :=
  ⟨by decide, build_shape_invariant gEx defsEx outEx (by decide) _ (by decide)⟩

/-- C6: whenever some criterion of `region_defs` references a field name
absent from the grid, `build` returns no output at all — it fails with
`InvalidField` naming a referenced field that is absent. -/
theorem missing_field_invalid :
    ∀ (g : Grid) (defs : RegionDefs),
      (∃ r ∈ defs, ∃ c ∈ r.2, ∃ nm ∈ critFields c, lookupField g nm = none) →
      (∀ out, build g defs ≠ Except.ok out) ∧
      ∃ nm, lookupField g nm = none ∧
        build g defs = Except.error (BuildError.InvalidField nm) := by
  intro g defs h
  obtain ⟨r, hr, c, hc, nm, hnm, hnone⟩ := h
  have hmem : nm ∈ allFields defs := by
    simp only [allFields, List.mem_flatten, List.mem_map]
    exact ⟨(r.2.map critFields).flatten, ⟨r, hr, rfl⟩,
      List.mem_flatten.mpr ⟨critFields c, List.mem_map.mpr ⟨c, hc, rfl⟩, hnm⟩⟩
  cases hfind : (allFields defs).find? (fun n => (lookupField g n).isNone) with
  | none =>
    exact absurd (by simp [hnone]) (List.find?_eq_none.mp hfind nm hmem)
  | some n2 =>
    have hp := List.find?_some hfind
    have hn2 : lookupField g n2 = none := Option.isNone_iff_eq_none.mp (by simpa using hp)
    have hb : build g defs = Except.error (BuildError.InvalidField n2) := by
      simp [build, firstError, missingField, hfind]
    exact ⟨fun out hout => by simp [hb] at hout, n2, hn2, hb⟩

/-- C6 witness: a region definition referencing the absent field `NOPE`
makes `build` fail with `InvalidField`, and concretely with
`InvalidField "NOPE"` on the example grid. -/
theorem missing_field_invalid_witness :
    (∃ nm, lookupField gEx nm = none ∧
      build gEx [("R", [⟨some ("NOPE", [1]), none⟩])] =
        Except.error (BuildError.InvalidField nm)) ∧
    build gEx [("R", [⟨some ("NOPE", [1]), none⟩])] =
      Except.error (BuildError.InvalidField "NOPE") :=
  ⟨(missing_field_invalid gEx [("R", [⟨some ("NOPE", [1]), none⟩])]
      ⟨("R", [⟨some ("NOPE", [1]), none⟩]), by decide,
        ⟨some ("NOPE", [1]), none⟩, by decide, "NOPE", by decide, by decide⟩).2,
   by decide⟩

/-- C7 counterexample: the claim is false as stated.  A `region_defs`
whose bounds interval has `low > high` but which also references an
absent field fails with `InvalidField`, not `InvalidBounds`; and a
`region_defs` with an empty region alongside a malformed-bounds region
fails with `InvalidBounds`, not `EmptyRegionSet`. -/
theorem error_precedence_counterexample :
    (badBounds ⟨none, some [("NOPE", 5, 3)]⟩ = true ∧
      build gEx [("R", [⟨none, some [("NOPE", 5, 3)]⟩])] ≠
        Except.error BuildError.InvalidBounds ∧
      build gEx [("R", [⟨none, some [("NOPE", 5, 3)]⟩])] =
        Except.error (BuildError.InvalidField "NOPE")) ∧
    (([("A", ([] : List Criterion)), ("B", [⟨none, some [("TLAT", 5, 3)]⟩])] :
        RegionDefs).any (fun r => r.2.isEmpty) = true ∧
      build gEx [("A", []), ("B", [⟨none, some [("TLAT", 5, 3)]⟩])] ≠
        Except.error BuildError.EmptyRegionSet ∧
      build gEx [("A", []), ("B", [⟨none, some [("TLAT", 5, 3)]⟩])] =
        Except.error BuildError.InvalidBounds) := by
  refine ⟨⟨?_, ?_, ?_⟩, ?_, ?_, ?_⟩ <;> decide

/-- C7 (amended): provided every referenced field exists on the grid, a
bounds interval with `low > high` makes `build` fail with
`InvalidBounds`; provided additionally that every bounds interval is
well-formed, a region with an empty criterion list makes `build` fail
with `EmptyRegionSet` (when several error conditions co-occur,
`InvalidField` takes precedence over `InvalidBounds`, which takes
precedence over `EmptyRegionSet`, following the order the spec lists
the error conditions). -/
theorem error_precedence_amended :
    (∀ (g : Grid) (defs : RegionDefs),
      (∀ nm ∈ allFields defs, (lookupField g nm).isSome = true) →
      (∃ r ∈ defs, ∃ c ∈ r.2, badBounds c = true) →
      build g defs = Except.error BuildError.InvalidBounds) ∧
    (∀ (g : Grid) (defs : RegionDefs),
      (∀ nm ∈ allFields defs, (lookupField g nm).isSome = true) →
      (∀ r ∈ defs, ∀ c ∈ r.2, badBounds c = false) →
      (∃ r ∈ defs, r.2 = []) →
      build g defs = Except.error BuildError.EmptyRegionSet) := by
  constructor
  · intro g defs hfields hbad
    have hm : missingField g defs = none := by
      unfold missingField
      rw [List.find?_eq_none]
      intro x hx hcon
      have h2 := hfields x hx
      rw [Option.isNone_iff_eq_none] at hcon
      rw [hcon] at h2
      simp at h2
    obtain ⟨r, hr, c, hc, hcbad⟩ := hbad
    have hany : (defs.any fun r => r.2.any badBounds) = true :=
      List.any_eq_true.mpr ⟨r, hr, List.any_eq_true.mpr ⟨c, hc, hcbad⟩⟩
    simp [build, firstError, hm, hany]
  · intro g defs hfields hgood hemp
    have hm : missingField g defs = none := by
      unfold missingField
      rw [List.find?_eq_none]
      intro x hx hcon
      have h2 := hfields x hx
      rw [Option.isNone_iff_eq_none] at hcon
      rw [hcon] at h2
      simp at h2
    have hany : (defs.any fun r => r.2.any badBounds) = false := by
      rw [List.any_eq_false]
      intro r hr
      rw [Bool.not_eq_true, List.any_eq_false]
      intro c hc
      simp [hgood r hr c hc]
    obtain ⟨r, hr, hre⟩ := hemp
    have hane : (defs.any fun r => r.2.isEmpty) = true :=
      List.any_eq_true.mpr ⟨r, hr, by simp [hre]⟩
    simp [build, firstError, hm, hany, hane]

/-- C7 witness: on the example grid, a malformed `TLAT` interval (with
all referenced fields present) yields `InvalidBounds`, and an empty
region (with all bounds well-formed) yields `EmptyRegionSet`. -/
theorem error_precedence_amended_witness :
    build gEx [("R", [⟨none, some [("TLAT", 5, 3)]⟩])] =
      Except.error BuildError.InvalidBounds ∧
    build gEx [("A", []), ("B", [critSPG])] =
      Except.error BuildError.EmptyRegionSet :=
  ⟨error_precedence_amended.1 gEx [("R", [⟨none, some [("TLAT", 5, 3)]⟩])]
      (by decide) ⟨("R", [⟨none, some [("TLAT", 5, 3)]⟩]), by decide,
        ⟨none, some [("TLAT", 5, 3)]⟩, by decide, by decide⟩,
   error_precedence_amended.2 gEx [("A", []), ("B", [critSPG])]
      (by decide) (by decide) ⟨("A", []), by decide, rfl⟩⟩

/-- C9: `build` is a pure function of its inputs — equal grids and equal
region definitions give equal results (the embedding is a total function,
so it neither mutates its inputs nor depends on anything else). -/
theorem build_deterministic :
    ∀ (g1 g2 : Grid) (defs1 defs2 : RegionDefs),
      g1 = g2 → defs1 = defs2 → build g1 defs1 = build g2 defs2 := by
  intro g1 g2 defs1 defs2 h1 h2
  rw [h1, h2]

/-- C9 witness: two calls of `build` on the example inputs agree. -/
theorem build_deterministic_witness :
    build gEx defsEx = build gEx defsEx :=
  build_deterministic gEx gEx defsEx defsEx rfl rfl

/-- C10: the subplot grid of `visualize_mask` covers all regions — for
every `nregion ≥ 1`, `ncol * nrow ≥ nregion`, so each region index gets
an axis and the trailing deletion loop removes the nonnegative count
`ncol * nrow - nregion` of unused axes; for `nregion = 0` the divisor
`ncol` used to compute `nrow` is zero. -/
theorem subplot_grid_covers :
    (∀ nregion : Nat, 1 ≤ nregion → nregion ≤ ncol nregion * nrow nregion) ∧
    ncol 0 = 0 := by
  constructor
  · intro n hn
    have hc : 0 < ncol n := Nat.sqrt_pos.mpr hn
    have hdm : ncol n * (n / ncol n) + n % ncol n = n := Nat.div_add_mod n (ncol n)
    have hlt : n % ncol n < ncol n := Nat.mod_lt n hc
    unfold nrow
    rcases Nat.eq_zero_or_pos (n % ncol n) with h0 | hpos
    · have hmin : min 1 (n % ncol n) = 0 := by omega
      rw [hmin, Nat.add_zero]
      omega
    · have hmin : min 1 (n % ncol n) = 1 := by omega
      rw [hmin, Nat.mul_add, Nat.mul_one]
      omega
  · decide

/-- C10 witness: for 5 regions, `ncol = 2` and `nrow = 3`, which covers
all 5 regions. -/
theorem subplot_grid_covers_witness :
    1 ≤ 5 ∧ 5 ≤ ncol 5 * nrow 5 :=
  ⟨by decide, subplot_grid_covers.1 5 (by decide)⟩

end PopTools

